import Mathlib

/-!
Verification development for the request-scoped resolution and post-processing
layer of `ycmd/completers/python/python_completer.py`.

The Python source is shallowly embedded: each method is translated to a pure
Lean function, with the completer's mutable cache dictionaries threaded as an
explicit `CompleterState`, external dependencies (the extra-conf hook, the
filesystem, the Jedi engine) passed in as oracle functions, and Python
exceptions modelled with `Except`.
-/

deriving instance DecidableEq for Except

namespace Ycmd

/-- Association-list lookup modelling a Python dict read (`d[k]` guarded by
`try/except KeyError`).  Insertion is modelled by consing a new binding, so
the most recent binding for a key wins, exactly as in a dict. -/
def alookup {α β : Type} [DecidableEq α] : List (α × β) → α → Option β
  | [], _ => none
  | p :: rest, k => if k = p.1 then some p.2 else alookup rest k

/-- Whitespace characters stripped by Python `str.strip()` (ASCII subset;
the source lines classified by the completer are ordinary source text). -/
def pyIsWhitespace (c : Char) : Bool :=
  c = ' ' || c = '\t' || c = '\n' || c = '\r' || c = '\x0b' || c = '\x0c'

/-- Python `str.strip()`: remove leading and trailing whitespace. -/
def pyStrip (s : List Char) : List Char :=
  ((s.dropWhile pyIsWhitespace).reverse.dropWhile pyIsWhitespace).reverse

/-- Python `str.startswith(prefixStr)` on codepoint lists. -/
def pyStartsWith : List Char → List Char → Bool
  | _, [] => true
  | [], _ :: _ => false
  | c :: cs, p :: ps => c = p && pyStartsWith cs ps

/-- Line classification used by `_GoToImplementation` (line 403 of the
source): `line_content.strip().startswith( ( 'import ', 'from ' ) )`. -/
def isImportLine (line : List Char) : Bool :=
  pyStartsWith (pyStrip line) ("import ".toList) ||
  pyStartsWith (pyStrip line) ("from ".toList)

/-- Python list indexing `lines[ i ]` (the caller has already established
that `i` is in range; out of range yields the empty line). -/
def lineAt : List (List Char) → Nat → List Char
  | [], _ => []
  | l :: _, 0 => l
  | _ :: rest, n + 1 => lineAt rest n

/-- A `(filepath, line_num, column_num)` triple, the location data that
`_GoToImplementation` extracts from a GoTo response dict and records in
`previous_locations` (source lines 335-339). -/
structure Location where
  filepath : String
  line_num : Nat
  column_num : Nat
deriving DecidableEq, Repr

/-- One execution of the `while iterations < max_iterations` loop of
`_GoToImplementation` (source lines 311-442), starting from request position
`req` with visited list `visited` and `fuel` remaining iterations.

* `oracle` abstracts `self._GoToDefinition` followed by taking the first
  element of a list result: `none` models both an empty result list and a
  raised `RuntimeError` (either way the outer `except` at line 429 fires).
* `fileLines` abstracts `file_data`/`ReadFile` + `splitlines`: the lines of
  the file at a path, `none` when the file is unknown and unreadable
  (the `IOError` path at line 387, which returns the current location).

Returns the result (`Except.error` models the re-raised `RuntimeError`)
paired with the number of single-hop oracle queries that were issued. -/
def GoToImplementationLoop (oracle : Location → Option Location)
    (fileLines : String → Option (List (List Char)))
    (req : Location) (visited : List Location) :
    Nat → Except String Location × Nat
  | 0 =>
    match visited.getLast? with
    | some l => (Except.ok l, 0)
    | none => (Except.error "Can't jump to implementation.", 0)
  | fuel + 1 =>
    match oracle req with
    | none =>
      match visited.getLast? with
      | some l => (Except.ok l, 1)
      | none => (Except.error "Can't jump to implementation.", 1)
    | some loc =>
      if loc ∈ visited then (Except.ok loc, 1)
      else
        match fileLines loc.filepath with
        | none => (Except.ok loc, 1)
        | some lines =>
          if loc.line_num = 0 || lines.length < loc.line_num then (Except.ok loc, 1)
          else if isImportLine (lineAt lines (loc.line_num - 1)) then
            let r := GoToImplementationLoop oracle fileLines loc (visited ++ [loc]) fuel
            (r.1, r.2 + 1)
          else (Except.ok loc, 1)

/-- `_GoToImplementation` (source lines 293-456): run the transitive walk
from the original request position with an empty visited list and the hard
hop cap `max_iterations = 10` (source line 308). -/
def GoToImplementation (oracle : Location → Option Location)
    (fileLines : String → Option (List (List Char)))
    (req : Location) : Except String Location × Nat :=
  GoToImplementationLoop oracle fileLines req [] 10

/-- The settings dictionary produced by `_GetSettings`: the fields of the
extra-conf `Settings()` result that this file reads
(`settings.get( 'interpreter_path' )` at line 139, `'sys_path'` and
`'project_directory'` in `_GetJediProject`).  `none` models an absent key. -/
structure SettingsVal where
  interpreter_path : Option String
  sys_path : Option (List String)
  project_directory : Option String
deriving DecidableEq, Repr

/-- A Jedi environment object.  `envId` models Python object identity: every
`jedi.get_default_environment()` / `jedi.create_environment(...)` call
constructs a fresh object, so it is stamped with a fresh id drawn from the
completer state.  Two environments are the same instance iff they are equal
as values, in particular iff their ids agree. -/
structure PyEnv where
  envId : Nat
  executable : String
deriving DecidableEq, Repr

/-- A `jedi.Project` as constructed at source lines 166-168. -/
structure Project where
  path : String
  sys_path : List String
  environment_path : String
deriving DecidableEq, Repr

/-- The merged settings dict passed to `module.PythonSysPath( **settings )`
in `_GetJediProject` (source lines 146-158). -/
structure ProjectSettings where
  interpreter_path : String
  sys_path : List String
  project_directory : Option String
deriving DecidableEq, Repr

/-- The completer's mutable cache dictionaries (`__init__`, source lines
60-63), threaded explicitly, plus the fresh-id counter used to stamp newly
constructed Jedi environments. -/
structure CompleterState where
  settings_for_file : List ((String × String) × SettingsVal)
  environment_for_file : List ((String × String) × PyEnv)
  environment_for_interpreter_path : List (Option String × PyEnv)
  jedi_project_for_file : List ((String × String) × Project)
  nextEnvId : Nat
deriving DecidableEq, Repr

/-- Externally observable effects of one resolution call: invocations of the
extra-conf hook (`extra_conf_store.ModuleForSourceFile` + `Settings` /
`PythonSysPath`), constructions of a Jedi environment, and constructions of
a Jedi project. -/
inductive ResolutionEvent
  | settingsHookCall (filepath : String)
  | envCreated (key : Option String)
  | sysPathHookCall (filepath : String)
  | projectBuilt (filepath : String)
deriving DecidableEq, Repr

/-- The external dependencies of the resolution chain, as oracles:

* `settingsHook fp cd` models `ModuleForSourceFile` + `module.Settings`:
  `none` when there is no extra conf module, it defines no `Settings`
  function, or that function returns `None` (then `_GetSettings` falls back
  to `{ 'interpreter_path': user_options['python_binary_path'] }`).
* `resolveExe` models `FindExecutable( ExpandVariablesInPath( · ) )` and
  `normpath` models `os.path.normpath` (both from `ycmd.utils`/`os`).
* `defaultExe` is the executable of `jedi.get_default_environment()`.
* `envSysPath` models `environment.get_sys_path()`.
* `sysPathHook fp` models `ModuleForSourceFile` + `module.PythonSysPath`:
  `none` when no module defines `PythonSysPath`.
* `dirname` models `os.path.dirname` and `defaultProjectPath` models
  `jedi.get_default_project( · )._path`. -/
structure Oracles where
  settingsHook : String → String → Option SettingsVal
  pythonBinaryPath : String
  resolveExe : String → Option String
  normpath : String → String
  defaultExe : String
  envSysPath : PyEnv → List String
  sysPathHook : String → Option (ProjectSettings → List String)
  dirname : String → String
  defaultProjectPath : String → String

/-- Python truthiness of an optional string (`if interpreter_path:` at
source line 110, `or` at line 502): `None` and `""` are falsy. -/
def pyTruthy : Option String → Bool
  | none => false
  | some s => s ≠ ""

/-- `_SettingsForRequest` (source lines 78-89): consult the per-FileKey
settings cache; on a miss, invoke the extra-conf hook (falling back to the
`python_binary_path` user option) and store the result. -/
def SettingsForRequest (o : Oracles) (st : CompleterState)
    (filepath clientData : String) :
    SettingsVal × CompleterState × List ResolutionEvent :=
  match alookup st.settings_for_file (filepath, clientData) with
  | some settings => (settings, st, [])
  | none =>
    let settings :=
      match o.settingsHook filepath clientData with
      | some s => s
      | none => { interpreter_path := some o.pythonBinaryPath,
                  sys_path := none, project_directory := none }
    ( settings,
      { st with settings_for_file :=
          ((filepath, clientData), settings) :: st.settings_for_file },
      [ResolutionEvent.settingsHookCall filepath] )

/-- `_EnvironmentForInterpreterPath` (source lines 109-127): for a truthy
interpreter path, locate the executable (raising when it cannot be found)
and normalize it; then look up the sub-cache keyed by the (normalized)
interpreter path, constructing and caching a fresh Jedi environment on a
miss.  The raise happens before any cache write. -/
def EnvironmentForInterpreterPath (o : Oracles) (st : CompleterState)
    (interpreterPath : Option String) :
    CompleterState × List ResolutionEvent × Except String PyEnv :=
  if pyTruthy interpreterPath then
    let p := interpreterPath.getD ""
    match o.resolveExe p with
    | none =>
      (st, [], Except.error ("Cannot find Python interpreter path " ++ p ++ "."))
    | some resolved =>
      let key := some (o.normpath resolved)
      match alookup st.environment_for_interpreter_path key with
      | some env => (st, [], Except.ok env)
      | none =>
        let env : PyEnv := { envId := st.nextEnvId, executable := o.normpath resolved }
        let table := (key, env) :: st.environment_for_interpreter_path
        ( { st with environment_for_interpreter_path := table,
                    nextEnvId := st.nextEnvId + 1 },
          [ResolutionEvent.envCreated key],
          Except.ok env )
  else
    match alookup st.environment_for_interpreter_path interpreterPath with
    | some env => (st, [], Except.ok env)
    | none =>
      let env : PyEnv := { envId := st.nextEnvId, executable := o.defaultExe }
      let table := (interpreterPath, env) :: st.environment_for_interpreter_path
      ( { st with environment_for_interpreter_path := table,
                  nextEnvId := st.nextEnvId + 1 },
        [ResolutionEvent.envCreated interpreterPath],
        Except.ok env )

/-- `_EnvironmentForRequest` (source lines 130-142): consult the per-FileKey
environment cache; on a miss, resolve the settings, then the environment for
their interpreter path, and store the result.  An error propagates with the
state as of the raise point (the settings cache write persists). -/
def EnvironmentForRequest (o : Oracles) (st : CompleterState)
    (filepath clientData : String) :
    CompleterState × List ResolutionEvent × Except String PyEnv :=
  match alookup st.environment_for_file (filepath, clientData) with
  | some env => (st, [], Except.ok env)
  | none =>
    let r := SettingsForRequest o st filepath clientData
    let e := EnvironmentForInterpreterPath o r.2.1 r.1.interpreter_path
    match e.2.2 with
    | Except.error msg => (e.1, r.2.2 ++ e.2.1, Except.error msg)
    | Except.ok env =>
      ( { e.1 with environment_for_file :=
            ((filepath, clientData), env) :: e.1.environment_for_file },
        r.2.2 ++ e.2.1,
        Except.ok env )

/-- `_GetJediProject` (source lines 145-168): merge settings with the
environment's executable and sys path, let an extra-conf `PythonSysPath`
hook override the sys path, derive a default project directory when none is
configured, and build the `jedi.Project`. -/
def GetJediProject (o : Oracles) (st : CompleterState)
    (filepath clientData : String) (environment : PyEnv) :
    Project × CompleterState × List ResolutionEvent :=
  let r := SettingsForRequest o st filepath clientData
  let merged : ProjectSettings :=
    { interpreter_path := environment.executable,
      sys_path := r.1.sys_path.getD [] ++ o.envSysPath environment,
      project_directory := r.1.project_directory }
  let sysPath :=
    match o.sysPathHook filepath with
    | some f => f merged
    | none => merged.sys_path
  let projectDirectory :=
    match r.1.project_directory with
    | some d => if d = "" then o.defaultProjectPath (o.dirname filepath) else d
    | none => o.defaultProjectPath (o.dirname filepath)
  ( { path := projectDirectory, sys_path := sysPath,
      environment_path := merged.interpreter_path },
    r.2.1,
    r.2.2 ++ [ResolutionEvent.sysPathHookCall filepath,
              ResolutionEvent.projectBuilt filepath] )

/-- `_JediProjectForFile` (source lines 171-181): consult the per-FileKey
project cache; on a miss, build the project and store it. -/
def JediProjectForFile (o : Oracles) (st : CompleterState)
    (filepath clientData : String) (environment : PyEnv) :
    Project × CompleterState × List ResolutionEvent :=
  match alookup st.jedi_project_for_file (filepath, clientData) with
  | some project => (project, st, [])
  | none =>
    let r := GetJediProject o st filepath clientData environment
    ( r.1,
      { r.2.1 with jedi_project_for_file :=
          ((filepath, clientData), r.1) :: r.2.1.jedi_project_for_file },
      r.2.2 )

/-- The full resolution chain for one FileKey, as exercised by
`OnFileReadyToParse`/`_GetJediScript` (environment, then project) together
with the settings accessor: the `ResolutionCache.Resolve` of the spec. -/
def ResolveForRequest (o : Oracles) (st : CompleterState)
    (filepath clientData : String) :
    CompleterState × List ResolutionEvent ×
      Except String (SettingsVal × PyEnv × Project) :=
  let e := EnvironmentForRequest o st filepath clientData
  match e.2.2 with
  | Except.error msg => (e.1, e.2.1, Except.error msg)
  | Except.ok env =>
    let p := JediProjectForFile o e.1 filepath clientData env
    let s := SettingsForRequest o p.2.1 filepath clientData
    (s.2.1, e.2.1 ++ p.2.2 ++ s.2.2, Except.ok (s.1, env, p.1))

/-- A Jedi `Name` as consumed by `_BuildGoToResponse` (source lines
492-522): `module_path`, `line` and `column` may each be `None`. -/
structure JediDefinition where
  module_path : Option String
  line : Option Nat
  column : Option Nat
  description : String
deriving DecidableEq, Repr

/-- A GoTo response dict as built by `responses.BuildGoToResponse` with the
arguments passed at source lines 503-506. -/
structure GoToItem where
  filepath : String
  line_num : Option Nat
  column_num : Nat
  description : String
deriving DecidableEq, Repr

/-- The possible return values of `_BuildGoToResponse`: a single response
dict, a list of response dicts, or Python `None`. -/
inductive GoToResponse
  | single (item : GoToItem)
  | multiple (items : List GoToItem)
  | nothing
deriving DecidableEq, Repr

/-- The per-definition response construction shared by both branches of
`_BuildGoToResponse`: `column = 1 (+ definition.column)` and
`filepath = definition.module_path or request_data[ 'filepath' ]`. -/
def BuildGoToItem (d : JediDefinition) (requestFilepath : String) : GoToItem :=
  { filepath :=
      match d.module_path with
      | some p => if p = "" then requestFilepath else p
      | none => requestFilepath,
    line_num := d.line,
    column_num := 1 + d.column.getD 0,
    description := d.description }

/-- `_BuildGoToResponse` (source lines 492-522): a single definition whose
`column`, `line` and `module_path` are all `None` yields Python `None`; with
several definitions, the all-`None` ones are skipped and a (possibly empty)
list is returned. -/
def BuildGoToResponse (definitions : List JediDefinition)
    (requestFilepath : String) : GoToResponse :=
  match definitions with
  | [d] =>
    if d.column = none ∧ d.line = none ∧ d.module_path = none then
      GoToResponse.nothing
    else
      GoToResponse.single (BuildGoToItem d requestFilepath)
  | _ =>
    GoToResponse.multiple (definitions.filterMap (fun d =>
      if d.column = none ∧ d.line = none ∧ d.module_path = none then none
      else some (BuildGoToItem d requestFilepath)))

/-- Number of GoTo results carried by a `_BuildGoToResponse` value. -/
def GoToResponseCount : GoToResponse → Nat
  | GoToResponse.single _ => 1
  | GoToResponse.multiple items => items.length
  | GoToResponse.nothing => 0

/-- `_GoToSymbol` (source lines 572-597): require a query argument, clamp
`max_num_candidates` to `100` when negative, take at most that many results
from `project.complete_search( query )` (the `itertools.islice`, with
`completeSearch` as the oracle for the search generator), and build the
response, raising `'Symbol not found'` when nothing usable came back. -/
def GoToSymbol (maxNumCandidates : Int)
    (completeSearch : String → List JediDefinition)
    (requestFilepath : String) (args : List String) :
    Except String GoToResponse :=
  match args with
  | [] => Except.error "Must specify something to search for"
  | query :: _ =>
    let MAX_RESULTS : Int := if maxNumCandidates < 0 then 100 else maxNumCandidates
    let definitions := (completeSearch query).take MAX_RESULTS.toNat
    if definitions.isEmpty then Except.error "Symbol not found"
    else
      match BuildGoToResponse definitions requestFilepath with
      | GoToResponse.nothing => Except.error "Symbol not found"
      | GoToResponse.single item => Except.ok (GoToResponse.single item)
      | GoToResponse.multiple items => Except.ok (GoToResponse.multiple items)

/-- The newline-offset cache built in `_RefactoringToFixIt` (source lines
786-787): the 0-based offsets of all `'\n'` characters, plus a sentinel
equal to the text length. -/
def newlineOffsets (text : List Char) : List Nat :=
  (text.enum.filterMap (fun p => if p.2 = '\n' then some p.1 else none)) ++
    [text.length]

/-- Modelled from the spec: `CodepointOffsetToByteOffset` is imported from
`ycmd.utils`, which is not part of this file.  Per the spec (§4.3), the
column measured in text units (codepoints) is converted to a column measured
in storage units (encoded bytes) by measuring the encoded width of the
portion of the line before that column; both columns are 1-based. -/
def CodepointOffsetToByteOffset (lineValue : List Char)
    (codepointOffset : Nat) : Nat :=
  ((lineValue.take (codepointOffset - 1)).map Char.utf8Size).sum + 1

/-- A `responses.Location( line, column, filename )` as built at source
lines 831-834. -/
structure FilePosition where
  line_num : Nat
  column_num : Nat
  filepath : String
deriving DecidableEq, Repr

/-- The `for index, newline in enumerate( newlines )` loop of
`_OffsetToPosition` (source lines 825-837), with `loc` the tuple built so
far.  The inner loop runs over `start_end[ len( loc ): ]` as sliced at entry
to the outer iteration; the outer loop breaks as soon as `len( loc ) == 2`,
and the function returns `loc` afterwards in every case — the
`raise RuntimeError( "Invalid file offset in diff" )` at source line 846
sits after the `return loc` at line 837 and is unreachable. -/
def OffsetToPositionLoop (start_end : List Nat) (filename : String)
    (text : List Char) (newlines : List Nat) :
    List (Nat × Nat) → List FilePosition → List FilePosition
  | [], loc => loc
  | (index, newline) :: rest, loc =>
    let step := fun (acc : List FilePosition) (offset : Nat) =>
      if offset ≤ newline then
        let start_of_line := if 0 < index then newlines.getD (index - 1) 0 + 1 else 0
        let column := offset - start_of_line
        let line_value := (text.take newline).drop start_of_line
        acc ++ [⟨index + 1,
                 CodepointOffsetToByteOffset line_value (column + 1),
                 filename⟩]
      else acc
    let nextLoc := (start_end.drop loc.length).foldl step loc
    if nextLoc.length = 2 then nextLoc
    else OffsetToPositionLoop start_end filename text newlines rest nextLoc

/-- `_OffsetToPosition` (source lines 818-837): convert the pair of 0-based
codepoint offsets `start_end` into `responses.Location` values against the
cached `newlines` index. -/
def OffsetToPosition (start_end : List Nat) (filename : String)
    (text : List Char) (newlines : List Nat) : List FilePosition :=
  OffsetToPositionLoop start_end filename text newlines newlines.enum []

/-- Index lists of `difflib.SequenceMatcher.__chain_b`: for each element of
`b`, the ascending list of positions where it occurs (`b2j`).  The junk and
popular sets are empty here because the source constructs the matcher with
`isjunk = None` and `autojunk = False` (source lines 789-791). -/
def b2j (b : List Char) (c : Char) : List Nat :=
  b.enum.filterMap (fun p => if p.2 = c then some p.1 else none)

/-- The `for j in b2j.get( a[i], [] )` loop inside
`difflib.SequenceMatcher.find_longest_match`: `continue` below `blo`,
`break` at `bhi`, and otherwise extend the run ending at `j` and update the
running best `(besti, bestj, bestsize)`.  `j2len` is the previous row of
run lengths, `newj2len` the row being built (association lists modelling
the dicts; a `j - 1` lookup at `j = 0` is a miss, as the dict never holds a
negative key). -/
def flmInner (blo bhi i : Nat) (j2len : List (Nat × Nat)) :
    List Nat → List (Nat × Nat) → Nat × Nat × Nat →
    List (Nat × Nat) × (Nat × Nat × Nat)
  | [], newj2len, best => (newj2len, best)
  | j :: js, newj2len, best =>
    if j < blo then flmInner blo bhi i j2len js newj2len best
    else if bhi ≤ j then (newj2len, best)
    else
      let k := (if j = 0 then 0 else (alookup j2len (j - 1)).getD 0) + 1
      let best2 := if best.2.2 < k then (i + 1 - k, j + 1 - k, k) else best
      flmInner blo bhi i j2len js ((j, k) :: newj2len) best2

/-- The `for i in range( alo, ahi )` loop of `find_longest_match`, with
`steps = ahi - i` iterations remaining. -/
def flmOuter (a b : List Char) (blo bhi : Nat) :
    Nat → Nat → List (Nat × Nat) → Nat × Nat × Nat → Nat × Nat × Nat
  | _, 0, _, best => best
  | i, steps + 1, j2len, best =>
    let r := flmInner blo bhi i j2len (b2j b (a.getD i default)) [] best
    flmOuter a b blo bhi (i + 1) steps r.1 r.2

/-- The backward extension loop of `find_longest_match` (`while besti > alo
and bestj > blo and a[besti-1] == b[bestj-1]`; the junk guard is vacuous as
the junk set is empty).  `fuel` bounds the iterations, `besti` suffices. -/
def flmExtendBackward (a b : List Char) (alo blo : Nat) :
    Nat → Nat × Nat × Nat → Nat × Nat × Nat
  | 0, best => best
  | fuel + 1, (besti, bestj, bestsize) =>
    if alo < besti ∧ blo < bestj ∧
        a.getD (besti - 1) default = b.getD (bestj - 1) default then
      flmExtendBackward a b alo blo fuel (besti - 1, bestj - 1, bestsize + 1)
    else (besti, bestj, bestsize)

/-- The forward extension loop of `find_longest_match` (`while
besti+bestsize < ahi and bestj+bestsize < bhi and a[besti+bestsize] ==
b[bestj+bestsize]`; the junk guard is again vacuous). -/
def flmExtendForward (a b : List Char) (ahi bhi : Nat) :
    Nat → Nat × Nat × Nat → Nat × Nat × Nat
  | 0, best => best
  | fuel + 1, (besti, bestj, bestsize) =>
    if besti + bestsize < ahi ∧ bestj + bestsize < bhi ∧
        a.getD (besti + bestsize) default = b.getD (bestj + bestsize) default then
      flmExtendForward a b ahi bhi fuel (besti, bestj, bestsize + 1)
    else (besti, bestj, bestsize)

/-- `difflib.SequenceMatcher.find_longest_match( alo, ahi, blo, bhi )` with
empty junk sets: the dynamic scan followed by the two non-junk extension
loops (the two junk extension loops never fire with an empty junk set). -/
def findLongestMatch (a b : List Char) (alo ahi blo bhi : Nat) :
    Nat × Nat × Nat :=
  let best := flmOuter a b blo bhi alo (ahi - alo) [] (alo, blo, 0)
  let best2 := flmExtendBackward a b alo blo best.1 best
  flmExtendForward a b ahi bhi (ahi - (best2.1 + best2.2.2)) best2

/-- The queue-driven loop of `difflib.SequenceMatcher.get_matching_blocks`:
pop a region (the Python list's `pop()` takes the most recently pushed
entry, so the head here), find its longest match, record it and push the
sub-regions to its left and right.  `fuel` bounds the iterations. -/
def matchingBlocksLoop (a b : List Char) :
    Nat → List (Nat × Nat × Nat × Nat) → List (Nat × Nat × Nat) →
    List (Nat × Nat × Nat)
  | 0, _, acc => acc
  | _ + 1, [], acc => acc
  | fuel + 1, (alo, ahi, blo, bhi) :: queue, acc =>
    let r := findLongestMatch a b alo ahi blo bhi
    let i := r.1
    let j := r.2.1
    let k := r.2.2
    if k = 0 then matchingBlocksLoop a b fuel queue acc
    else
      let queue1 := if alo < i ∧ blo < j then (alo, i, blo, j) :: queue else queue
      let queue2 :=
        if i + k < ahi ∧ j + k < bhi then (i + k, ahi, j + k, bhi) :: queue1
        else queue1
      matchingBlocksLoop a b fuel queue2 (acc ++ [(i, j, k)])

/-- Lexicographic comparison of matching blocks, as Python's tuple `sort()`
orders them. -/
def blockLe (x y : Nat × Nat × Nat) : Bool :=
  x.1 < y.1 ∨ (x.1 = y.1 ∧ (x.2.1 < y.2.1 ∨ (x.2.1 = y.2.1 ∧ x.2.2 ≤ y.2.2)))

/-- Insertion into a `blockLe`-sorted list. -/
def insertBlock (x : Nat × Nat × Nat) :
    List (Nat × Nat × Nat) → List (Nat × Nat × Nat)
  | [] => [x]
  | y :: ys => if blockLe x y then x :: y :: ys else y :: insertBlock x ys

/-- Insertion sort of matching blocks (`matching_blocks.sort()`). -/
def sortBlocks : List (Nat × Nat × Nat) → List (Nat × Nat × Nat)
  | [] => []
  | x :: xs => insertBlock x (sortBlocks xs)

/-- The adjacent-block merging pass at the end of `get_matching_blocks`,
with `(i1, j1, k1)` the accumulated block (initially `(0, 0, 0)`). -/
def mergeAdjacentBlocks :
    List (Nat × Nat × Nat) → Nat × Nat × Nat → List (Nat × Nat × Nat)
  | [], (i1, j1, k1) => if k1 ≠ 0 then [(i1, j1, k1)] else []
  | (i2, j2, k2) :: rest, (i1, j1, k1) =>
    if i1 + k1 = i2 ∧ j1 + k1 = j2 then mergeAdjacentBlocks rest (i1, j1, k1 + k2)
    else (if k1 ≠ 0 then [(i1, j1, k1)] else []) ++
      mergeAdjacentBlocks rest (i2, j2, k2)

/-- `difflib.SequenceMatcher.get_matching_blocks` for the matcher built at
source lines 789-791: collected blocks, sorted, merged when adjacent, with
the `( len( a ), len( b ), 0 )` sentinel appended. -/
def getMatchingBlocks (a b : List Char) : List (Nat × Nat × Nat) :=
  let blocks := matchingBlocksLoop a b (2 * a.length + 2)
    [(0, a.length, 0, b.length)] []
  mergeAdjacentBlocks (sortBlocks blocks) (0, 0, 0) ++ [(a.length, b.length, 0)]

/-- The opcode tags of `difflib.SequenceMatcher.get_opcodes`. -/
inductive OpTag
  | equal
  | replace
  | delete
  | insert
deriving DecidableEq, Repr

/-- One `( tag, i1, i2, j1, j2 )` opcode of `get_opcodes`. -/
structure Opcode where
  tag : OpTag
  oldStart : Nat
  oldEnd : Nat
  newStart : Nat
  newEnd : Nat
deriving DecidableEq, Repr

/-- The loop of `get_opcodes` over the matching blocks, with `(i, j)` the
position reached so far: a `replace`/`delete`/`insert` opcode for the gap
before each block, then an `equal` opcode for the block itself. -/
def opcodesFromBlocks : List (Nat × Nat × Nat) → Nat → Nat → List Opcode
  | [], _, _ => []
  | (ai, bj, size) :: rest, i, j =>
    let gap : List Opcode :=
      if i < ai ∧ j < bj then [⟨OpTag.replace, i, ai, j, bj⟩]
      else if i < ai then [⟨OpTag.delete, i, ai, j, bj⟩]
      else if j < bj then [⟨OpTag.insert, i, ai, j, bj⟩]
      else []
    let eq : List Opcode :=
      if size ≠ 0 then [⟨OpTag.equal, ai, ai + size, bj, bj + size⟩] else []
    gap ++ eq ++ opcodesFromBlocks rest (ai + size) (bj + size)

/-- `difflib.SequenceMatcher( a, b, autojunk = False ).get_opcodes()`. -/
def getOpcodes (a b : List Char) : List Opcode :=
  opcodesFromBlocks (getMatchingBlocks a b) 0 0

/-- A `responses.FixItChunk` as built at source lines 804-810: the
replacement text `new_text[ new_start : new_end ]` and the
`responses.Range( *_OffsetToPosition( ... ) )` start/end positions. -/
structure FixItChunk where
  replacementText : List Char
  range : List FilePosition
deriving DecidableEq, Repr

/-- The opcode loop of `_RefactoringToFixIt` (source lines 793-810) for one
changed file, over an arbitrary opcode sequence: `equal` opcodes are
skipped, every other opcode appends exactly one chunk. -/
def ChunksFromOpcodes (filename : String) (oldText newText : List Char)
    (newlines : List Nat) (ops : List Opcode) : List FixItChunk :=
  ops.foldl (fun chunks op =>
    if op.tag = OpTag.equal then chunks
    else chunks ++ [⟨(newText.take op.newEnd).drop op.newStart,
                     OffsetToPosition [op.oldStart, op.oldEnd] filename
                       oldText newlines⟩]) []

/-- The per-file body of `_RefactoringToFixIt` (source lines 780-810):
build the newline cache for the old text, run the sequence matcher, and
emit the chunks. -/
def RefactoringChunksForFile (filename : String) (oldText newText : List Char) :
    List FixItChunk :=
  ChunksFromOpcodes filename oldText newText (newlineOffsets oldText)
    (getOpcodes oldText newText)

/-- Concrete oracles for witness instantiations: no extra-conf hooks, two
resolvable interpreter names that normalize to one executable, everything
else fixed. -/
def wOracles : Oracles :=
  { settingsHook := fun _ _ => none,
    pythonBinaryPath := "",
    resolveExe := fun p =>
      if p = "py1" || p = "py2" then some "/usr/bin/python3.11" else none,
    normpath := fun s => s,
    defaultExe := "/usr/bin/python3",
    envSysPath := fun _ => [],
    sysPathHook := fun _ => none,
    dirname := fun _ => "",
    defaultProjectPath := fun _ => "/proj" }

/-- A completer state with all caches empty, as after `__init__`. -/
def emptyCompleterState : CompleterState := ⟨[], [], [], [], 0⟩

/-- A completer state whose settings cache already maps two distinct
FileKeys to settings naming the two interpreter paths of `wOracles`. -/
def wStateTwoFiles : CompleterState :=
  { settings_for_file := [(("a.py", "t"), ⟨some "py1", none, none⟩),
                          (("b.py", "t"), ⟨some "py2", none, none⟩)],
    environment_for_file := [],
    environment_for_interpreter_path := [],
    jedi_project_for_file := [],
    nextEnvId := 0 }

/-- Concrete fixed location for the transitive-walk witnesses. -/
def wLocA : Location := ⟨"m.py", 1, 1⟩

/-- Concrete file-lines oracle: every file is a single import line. -/
def wImportFileLines : String → Option (List (List Char)) :=
  fun _ => some ["import os".toList]

/-- Concrete single-hop oracle that always answers `wLocA`. -/
def wOracleA : Location → Option Location := fun _ => some wLocA

/-- Concrete single-hop oracle that never finds a definition. -/
def wOracleNone : Location → Option Location := fun _ => none

/-- Concrete original request position for the transitive-walk witnesses. -/
def wReq : Location := ⟨"orig.py", 5, 5⟩

/-- The completer state after resolving `("a.py", "t")` from an empty state
with `wOracles`. -/
def wStateResolved : CompleterState :=
  { settings_for_file := [(("a.py", "t"), ⟨some "", none, none⟩)],
    environment_for_file := [(("a.py", "t"), ⟨0, "/usr/bin/python3"⟩)],
    environment_for_interpreter_path := [(some "", ⟨0, "/usr/bin/python3"⟩)],
    jedi_project_for_file :=
      [(("a.py", "t"), ⟨"/proj", [], "/usr/bin/python3"⟩)],
    nextEnvId := 1 }

/-- `wStateTwoFiles` after resolving the environment of `("a.py", "t")`. -/
def wStateTwoFilesAfterA : CompleterState :=
  { settings_for_file := [(("a.py", "t"), ⟨some "py1", none, none⟩),
                          (("b.py", "t"), ⟨some "py2", none, none⟩)],
    environment_for_file := [(("a.py", "t"), ⟨0, "/usr/bin/python3.11"⟩)],
    environment_for_interpreter_path :=
      [(some "/usr/bin/python3.11", ⟨0, "/usr/bin/python3.11"⟩)],
    jedi_project_for_file := [],
    nextEnvId := 1 }

/-- `wStateTwoFilesAfterA` after also resolving `("b.py", "t")`: the same
environment instance is reused, nothing new is constructed. -/
def wStateTwoFilesAfterB : CompleterState :=
  { settings_for_file := [(("a.py", "t"), ⟨some "py1", none, none⟩),
                          (("b.py", "t"), ⟨some "py2", none, none⟩)],
    environment_for_file := [(("b.py", "t"), ⟨0, "/usr/bin/python3.11"⟩),
                             (("a.py", "t"), ⟨0, "/usr/bin/python3.11"⟩)],
    environment_for_interpreter_path :=
      [(some "/usr/bin/python3.11", ⟨0, "/usr/bin/python3.11"⟩)],
    jedi_project_for_file := [],
    nextEnvId := 1 }

/-- Concrete search results for the GoToSymbol witness. -/
def wDefs : List JediDefinition :=
  List.replicate 3 ⟨some "mod.py", some 1, some 0, "d"⟩

theorem gtiLoop_queries_le (oracle : Location → Option Location)
    (fileLines : String → Option (List (List Char))) :
    ∀ (fuel : Nat) (req : Location) (visited : List Location),
      (GoToImplementationLoop oracle fileLines req visited fuel).2 ≤ fuel := by
  intro fuel
  induction fuel with
  | zero =>
    intro req visited
    cases h : visited.getLast? <;> simp [GoToImplementationLoop, h]
  | succ n ih =>
    intro req visited
    cases ho : oracle req with
    | none =>
      cases h : visited.getLast? <;> simp [GoToImplementationLoop, ho, h]
    | some loc =>
      by_cases hmem : loc ∈ visited
      · simp [GoToImplementationLoop, ho, hmem]
      · cases hf : fileLines loc.filepath with
        | none => simp [GoToImplementationLoop, ho, hmem, hf]
        | some lines =>
          by_cases hrange : (loc.line_num = 0 || lines.length < loc.line_num) = true
          · simp [GoToImplementationLoop, ho, hmem, hf, hrange]
          · by_cases himp : isImportLine (lineAt lines (loc.line_num - 1)) = true
            · have := ih loc (visited ++ [loc])
              simp [GoToImplementationLoop, ho, hmem, hf, hrange, himp]
              omega
            · simp [GoToImplementationLoop, ho, hmem, hf, hrange, himp]

theorem gtiLoop_error_from_empty (oracle : Location → Option Location)
    (fileLines : String → Option (List (List Char))) :
    ∀ (fuel : Nat) (req : Location) (visited : List Location)
      (e : String),
      (GoToImplementationLoop oracle fileLines req visited fuel).1 =
        Except.error e →
      visited = [] ∧
        (GoToImplementationLoop oracle fileLines req visited fuel).2 =
          min fuel 1 := by
  intro fuel
  induction fuel with
  | zero =>
    intro req visited e herr
    cases h : visited.getLast? with
    | none =>
      refine ⟨List.getLast?_eq_none_iff.mp h, ?_⟩
      simp [GoToImplementationLoop, h]
    | some l => simp [GoToImplementationLoop, h] at herr
  | succ n ih =>
    intro req visited e herr
    cases ho : oracle req with
    | none =>
      cases h : visited.getLast? with
      | none =>
        refine ⟨List.getLast?_eq_none_iff.mp h, ?_⟩
        simp [GoToImplementationLoop, ho, h]
      | some l => simp [GoToImplementationLoop, ho, h] at herr
    | some loc =>
      by_cases hmem : loc ∈ visited
      · simp [GoToImplementationLoop, ho, hmem] at herr
      · cases hf : fileLines loc.filepath with
        | none => simp [GoToImplementationLoop, ho, hmem, hf] at herr
        | some lines =>
          by_cases hrange : (loc.line_num = 0 || lines.length < loc.line_num) = true
          · simp [GoToImplementationLoop, ho, hmem, hf, hrange] at herr
          · by_cases himp : isImportLine (lineAt lines (loc.line_num - 1)) = true
            · simp [GoToImplementationLoop, ho, hmem, hf, hrange, himp] at herr
              have := (ih loc (visited ++ [loc]) e herr).1
              simp at this
            · simp [GoToImplementationLoop, ho, hmem, hf, hrange, himp] at herr

/-- Claim C2: if the location produced by a single-hop definition query is
already in the visited list, the walk terminates at once and returns that
location; and with a single-hop oracle constantly answering a fixed
location `A` whose source line is an import, the whole walk returns `A`
after exactly 2 single-hop queries, not after the hop cap. -/
theorem GoToImplementation_revisit_fixpoint :
    (∀ (oracle : Location → Option Location)
       (fileLines : String → Option (List (List Char)))
       (req : Location) (visited : List Location) (loc : Location) (n : Nat),
       oracle req = some loc → loc ∈ visited →
       GoToImplementationLoop oracle fileLines req visited (n + 1) =
         (Except.ok loc, 1)) ∧
    (∀ (fileLines : String → Option (List (List Char)))
       (req A : Location) (lines : List (List Char)),
       fileLines A.filepath = some lines →
       A.line_num ≠ 0 → A.line_num ≤ lines.length →
       isImportLine (lineAt lines (A.line_num - 1)) = true →
       GoToImplementation (fun _ => some A) fileLines req =
         (Except.ok A, 2)) := by
  constructor
  · intro oracle fileLines req visited loc n ho hmem
    simp [GoToImplementationLoop, ho, hmem]
  · intro fileLines req A lines hl h0 hle himp
    have hrange : (A.line_num = 0 || lines.length < A.line_num) = false := by
      simp only [Bool.or_eq_false_iff, decide_eq_false_iff_not]
      omega
    have hstep2 :
        GoToImplementationLoop (fun _ => some A) fileLines A [A] 9 =
          (Except.ok A, 1) := by
      simp [GoToImplementationLoop, show (9 : Nat) = 8 + 1 from rfl]
    unfold GoToImplementation
    simp [GoToImplementationLoop, show (10 : Nat) = 9 + 1 from rfl, hl,
          hrange, himp, hstep2]

/-- Witness for `GoToImplementation_revisit_fixpoint` at concrete inputs. -/
theorem GoToImplementation_revisit_fixpoint_witness :
    GoToImplementationLoop wOracleA wImportFileLines wReq [wLocA] 1 =
      (Except.ok wLocA, 1) ∧
    GoToImplementation wOracleA wImportFileLines wReq =
      (Except.ok wLocA, 2) := by
  constructor
  · exact GoToImplementation_revisit_fixpoint.1 wOracleA wImportFileLines wReq
      [wLocA] wLocA 0 rfl (by decide)
  · exact GoToImplementation_revisit_fixpoint.2 wImportFileLines wReq wLocA
      ["import os".toList] rfl (by decide) (by decide) (by decide)

/-- Claim C5: the walk issues at most 10 single-hop queries; when the
iteration budget is exhausted without a terminal state and at least one
location was visited, the loop returns the last visited location as a
degraded result; and whenever the walk does fail, it failed on the very
first query (so cap exhaustion never raises). -/
theorem GoToImplementation_hop_cap :
    (∀ (oracle : Location → Option Location)
       (fileLines : String → Option (List (List Char))) (req : Location),
       (GoToImplementation oracle fileLines req).2 ≤ 10) ∧
    (∀ (oracle : Location → Option Location)
       (fileLines : String → Option (List (List Char)))
       (req : Location) (visited : List Location) (l : Location),
       visited.getLast? = some l →
       GoToImplementationLoop oracle fileLines req visited 0 =
         (Except.ok l, 0)) ∧
    (∀ (oracle : Location → Option Location)
       (fileLines : String → Option (List (List Char)))
       (req : Location) (e : String),
       (GoToImplementation oracle fileLines req).1 = Except.error e →
       (GoToImplementation oracle fileLines req).2 = 1) := by
  refine ⟨?_, ?_, ?_⟩
  · intro oracle fileLines req
    exact gtiLoop_queries_le oracle fileLines 10 req []
  · intro oracle fileLines req visited l h
    simp [GoToImplementationLoop, h]
  · intro oracle fileLines req e herr
    have := (gtiLoop_error_from_empty oracle fileLines 10 req [] e herr).2
    simpa using this

/-- Witness for `GoToImplementation_hop_cap` at concrete inputs. -/
theorem GoToImplementation_hop_cap_witness :
    (GoToImplementation wOracleA wImportFileLines wReq).2 ≤ 10 ∧
    GoToImplementationLoop wOracleA wImportFileLines wReq [wLocA] 0 =
      (Except.ok wLocA, 0) ∧
    (GoToImplementation wOracleNone wImportFileLines wReq).2 = 1 := by
  refine ⟨GoToImplementation_hop_cap.1 wOracleA wImportFileLines wReq,
          GoToImplementation_hop_cap.2.1 wOracleA wImportFileLines wReq
            [wLocA] wLocA rfl,
          GoToImplementation_hop_cap.2.2 wOracleNone wImportFileLines wReq
            "Can't jump to implementation." rfl⟩

/-- Claim C6: when a single-hop query yields no result, the walk returns
the last visited location if any location was visited, and fails with the
no-definition error when the failure happened on the very first hop. -/
theorem GoToImplementation_no_result_policy :
    (∀ (oracle : Location → Option Location)
       (fileLines : String → Option (List (List Char)))
       (req : Location) (visited : List Location) (l : Location) (n : Nat),
       oracle req = none → visited.getLast? = some l →
       GoToImplementationLoop oracle fileLines req visited (n + 1) =
         (Except.ok l, 1)) ∧
    (∀ (oracle : Location → Option Location)
       (fileLines : String → Option (List (List Char))) (req : Location),
       oracle req = none →
       GoToImplementation oracle fileLines req =
         (Except.error "Can't jump to implementation.", 1)) := by
  constructor
  · intro oracle fileLines req visited l n ho hlast
    simp [GoToImplementationLoop, ho, hlast]
  · intro oracle fileLines req ho
    unfold GoToImplementation
    simp [GoToImplementationLoop, show (10 : Nat) = 9 + 1 from rfl, ho]

/-- Witness for `GoToImplementation_no_result_policy` at concrete inputs. -/
theorem GoToImplementation_no_result_policy_witness :
    GoToImplementationLoop wOracleNone wImportFileLines wReq [wLocA] 1 =
      (Except.ok wLocA, 1) ∧
    GoToImplementation wOracleNone wImportFileLines wReq =
      (Except.error "Can't jump to implementation.", 1) := by
  exact ⟨GoToImplementation_no_result_policy.1 wOracleNone wImportFileLines
           wReq [wLocA] wLocA 0 rfl rfl,
         GoToImplementation_no_result_policy.2 wOracleNone wImportFileLines
           wReq rfl⟩

/-- Claim C9: at a step whose fresh current location is `loc`, the walk
returns `loc` when its line number is out of range for the file, continues
with a new single-hop query positioned at `loc` when the line (after
stripping leading whitespace) starts an import statement, and returns `loc`
when it does not. -/
theorem GoToImplementation_step_classification
    (oracle : Location → Option Location)
    (fileLines : String → Option (List (List Char)))
    (req : Location) (visited : List Location) (loc : Location)
    (lines : List (List Char)) (n : Nat)
    (hq : oracle req = some loc) (hnv : loc ∉ visited)
    (hl : fileLines loc.filepath = some lines) :
    ((loc.line_num = 0 ∨ lines.length < loc.line_num) →
       GoToImplementationLoop oracle fileLines req visited (n + 1) =
         (Except.ok loc, 1)) ∧
    (loc.line_num ≠ 0 → loc.line_num ≤ lines.length →
       isImportLine (lineAt lines (loc.line_num - 1)) = true →
       GoToImplementationLoop oracle fileLines req visited (n + 1) =
         ((GoToImplementationLoop oracle fileLines loc (visited ++ [loc]) n).1,
          (GoToImplementationLoop oracle fileLines loc (visited ++ [loc]) n).2
            + 1)) ∧
    (loc.line_num ≠ 0 → loc.line_num ≤ lines.length →
       isImportLine (lineAt lines (loc.line_num - 1)) = false →
       GoToImplementationLoop oracle fileLines req visited (n + 1) =
         (Except.ok loc, 1)) := by
  refine ⟨?_, ?_, ?_⟩
  · intro hrange
    have hb : (loc.line_num = 0 || lines.length < loc.line_num) = true := by
      rcases hrange with h | h <;> simp [h]
    simp [GoToImplementationLoop, hq, hnv, hl, hb]
  · intro h0 hle himp
    have hb : (loc.line_num = 0 || lines.length < loc.line_num) = false := by
      simp only [Bool.or_eq_false_iff, decide_eq_false_iff_not]
      omega
    simp [GoToImplementationLoop, hq, hnv, hl, hb, himp]
  · intro h0 hle himp
    have hb : (loc.line_num = 0 || lines.length < loc.line_num) = false := by
      simp only [Bool.or_eq_false_iff, decide_eq_false_iff_not]
      omega
    simp [GoToImplementationLoop, hq, hnv, hl, hb, himp]

/-- Witness for `GoToImplementation_step_classification`: the import case
at concrete inputs. -/
theorem GoToImplementation_step_classification_witness :
    GoToImplementationLoop wOracleA wImportFileLines wReq [] 1 =
      ((GoToImplementationLoop wOracleA wImportFileLines wLocA [wLocA] 0).1,
       (GoToImplementationLoop wOracleA wImportFileLines wLocA [wLocA] 0).2
         + 1) := by
  exact (GoToImplementation_step_classification wOracleA wImportFileLines
    wReq [] wLocA ["import os".toList] 0 rfl (by decide) rfl).2.1
    (by decide) (by decide) (by decide)

theorem SettingsForRequest_hit (o : Oracles) (st : CompleterState)
    (filepath clientData : String) (s : SettingsVal)
    (h : alookup st.settings_for_file (filepath, clientData) = some s) :
    SettingsForRequest o st filepath clientData = (s, st, []) := by
  simp [SettingsForRequest, h]

theorem SettingsForRequest_spec (o : Oracles) (st : CompleterState)
    (filepath clientData : String) :
    alookup (SettingsForRequest o st filepath clientData).2.1.settings_for_file
        (filepath, clientData) =
      some (SettingsForRequest o st filepath clientData).1 ∧
    (SettingsForRequest o st filepath clientData).2.1.environment_for_file =
      st.environment_for_file ∧
    (SettingsForRequest o st filepath
        clientData).2.1.environment_for_interpreter_path =
      st.environment_for_interpreter_path ∧
    (SettingsForRequest o st filepath clientData).2.1.jedi_project_for_file =
      st.jedi_project_for_file ∧
    (SettingsForRequest o st filepath clientData).2.1.nextEnvId =
      st.nextEnvId := by
  cases h : alookup st.settings_for_file (filepath, clientData) with
  | some s => simp [SettingsForRequest, h]
  | none => simp [SettingsForRequest, h, alookup]

theorem EnvironmentForInterpreterPath_frame (o : Oracles)
    (st : CompleterState) (ip : Option String) :
    (EnvironmentForInterpreterPath o st ip).1.settings_for_file =
      st.settings_for_file ∧
    (EnvironmentForInterpreterPath o st ip).1.environment_for_file =
      st.environment_for_file ∧
    (EnvironmentForInterpreterPath o st ip).1.jedi_project_for_file =
      st.jedi_project_for_file := by
  unfold EnvironmentForInterpreterPath
  by_cases ht : pyTruthy ip = true
  · cases hr : o.resolveExe (ip.getD "") with
    | none => simp [ht, hr]
    | some r =>
      cases hl : alookup st.environment_for_interpreter_path
          (some (o.normpath r)) with
      | some env => simp [ht, hr, hl]
      | none => simp [ht, hr, hl]
  · cases hl : alookup st.environment_for_interpreter_path ip with
    | some env => simp [ht, hl]
    | none => simp [ht, hl]

theorem EnvironmentForInterpreterPath_resolved (o : Oracles)
    (st : CompleterState) (p r : String)
    (hp : p ≠ "") (hr : o.resolveExe p = some r) :
    EnvironmentForInterpreterPath o st (some p) =
      (match alookup st.environment_for_interpreter_path
          (some (o.normpath r)) with
       | some env => (st, [], Except.ok env)
       | none =>
         ({ st with
              environment_for_interpreter_path :=
                (some (o.normpath r), ⟨st.nextEnvId, o.normpath r⟩) ::
                  st.environment_for_interpreter_path,
              nextEnvId := st.nextEnvId + 1 },
          [ResolutionEvent.envCreated (some (o.normpath r))],
          Except.ok ⟨st.nextEnvId, o.normpath r⟩)) := by
  have ht : pyTruthy (some p) = true := by simp [pyTruthy, hp]
  unfold EnvironmentForInterpreterPath
  simp only [ht, if_true, Option.getD_some, hr]

theorem EnvironmentForInterpreterPath_unresolvable (o : Oracles)
    (st : CompleterState) (p : String)
    (hp : p ≠ "") (hr : o.resolveExe p = none) :
    EnvironmentForInterpreterPath o st (some p) =
      (st, [],
       Except.error ("Cannot find Python interpreter path " ++ p ++ ".")) := by
  have ht : pyTruthy (some p) = true := by simp [pyTruthy, hp]
  unfold EnvironmentForInterpreterPath
  simp only [ht, if_true, Option.getD_some, hr]

theorem EnvironmentForInterpreterPath_falsy (o : Oracles)
    (st : CompleterState) (ip : Option String)
    (ht : pyTruthy ip = false) :
    EnvironmentForInterpreterPath o st ip =
      (match alookup st.environment_for_interpreter_path ip with
       | some env => (st, [], Except.ok env)
       | none =>
         ({ st with
              environment_for_interpreter_path :=
                (ip, ⟨st.nextEnvId, o.defaultExe⟩) ::
                  st.environment_for_interpreter_path,
              nextEnvId := st.nextEnvId + 1 },
          [ResolutionEvent.envCreated ip],
          Except.ok ⟨st.nextEnvId, o.defaultExe⟩)) := by
  unfold EnvironmentForInterpreterPath
  simp only [ht, Bool.false_eq_true, if_false]

theorem EnvironmentForRequest_hit (o : Oracles) (st : CompleterState)
    (filepath clientData : String) (env : PyEnv)
    (h : alookup st.environment_for_file (filepath, clientData) = some env) :
    EnvironmentForRequest o st filepath clientData =
      (st, [], Except.ok env) := by
  simp [EnvironmentForRequest, h]

theorem EnvironmentForRequest_ok_spec (o : Oracles) (st : CompleterState)
    (filepath clientData : String) (env : PyEnv)
    (hok : (EnvironmentForRequest o st filepath clientData).2.2 =
      Except.ok env) :
    alookup (EnvironmentForRequest o st filepath
        clientData).1.environment_for_file (filepath, clientData) =
      some env ∧
    (EnvironmentForRequest o st filepath clientData).1.jedi_project_for_file =
      st.jedi_project_for_file := by
  unfold EnvironmentForRequest at hok ⊢
  cases h : alookup st.environment_for_file (filepath, clientData) with
  | some env2 =>
    simp only [h] at hok ⊢
    simp only [Except.ok.injEq] at hok
    simp [alookup, ← hok]
  | none =>
    simp only [h] at hok ⊢
    cases he : (EnvironmentForInterpreterPath o
        (SettingsForRequest o st filepath clientData).2.1
        (SettingsForRequest o st filepath clientData).1.interpreter_path).2.2 with
    | error msg => simp [he] at hok
    | ok env2 =>
      simp only [he] at hok ⊢
      simp only [Except.ok.injEq] at hok
      have hf1 := (SettingsForRequest_spec o st filepath clientData).2.2.2.1
      have hf2 := (EnvironmentForInterpreterPath_frame o
        (SettingsForRequest o st filepath clientData).2.1
        (SettingsForRequest o st filepath clientData).1.interpreter_path).2.2
      simp [alookup, hok, hf1, hf2]

theorem GetJediProject_frame (o : Oracles) (st : CompleterState)
    (filepath clientData : String) (environment : PyEnv) :
    (GetJediProject o st filepath clientData
        environment).2.1.environment_for_file = st.environment_for_file ∧
    (GetJediProject o st filepath clientData
        environment).2.1.environment_for_interpreter_path =
      st.environment_for_interpreter_path ∧
    (GetJediProject o st filepath clientData
        environment).2.1.jedi_project_for_file = st.jedi_project_for_file ∧
    (GetJediProject o st filepath clientData environment).2.1.nextEnvId =
      st.nextEnvId := by
  have hs := SettingsForRequest_spec o st filepath clientData
  exact ⟨hs.2.1, hs.2.2.1, hs.2.2.2.1, hs.2.2.2.2⟩

theorem JediProjectForFile_hit (o : Oracles) (st : CompleterState)
    (filepath clientData : String) (environment : PyEnv) (proj : Project)
    (h : alookup st.jedi_project_for_file (filepath, clientData) =
      some proj) :
    JediProjectForFile o st filepath clientData environment =
      (proj, st, []) := by
  simp [JediProjectForFile, h]

theorem JediProjectForFile_spec (o : Oracles) (st : CompleterState)
    (filepath clientData : String) (environment : PyEnv) :
    alookup (JediProjectForFile o st filepath clientData
        environment).2.1.jedi_project_for_file (filepath, clientData) =
      some (JediProjectForFile o st filepath clientData environment).1 ∧
    (JediProjectForFile o st filepath clientData
        environment).2.1.environment_for_file = st.environment_for_file ∧
    (JediProjectForFile o st filepath clientData
        environment).2.1.environment_for_interpreter_path =
      st.environment_for_interpreter_path ∧
    (JediProjectForFile o st filepath clientData environment).2.1.nextEnvId =
      st.nextEnvId := by
  cases h : alookup st.jedi_project_for_file (filepath, clientData) with
  | some proj => simp [JediProjectForFile, h]
  | none =>
    have hg := GetJediProject_frame o st filepath clientData environment
    simp [JediProjectForFile, h, alookup, hg.1, hg.2.1, hg.2.2.2]

/-- Claim C3: calling the resolution chain a second time with an equal
FileKey and no intervening configuration change returns exactly the stored
Settings, RuntimeEnvironment and ProjectConfig values, leaves the whole
completer state (all three cache tables and the id counter) unchanged, and
performs no external hook invocation, environment construction, or project
construction. -/
theorem resolution_cache_idempotent (o : Oracles) (st0 st1 : CompleterState)
    (filepath clientData : String) (ev : List ResolutionEvent)
    (settings : SettingsVal) (env : PyEnv) (proj : Project)
    (h : ResolveForRequest o st0 filepath clientData =
      (st1, ev, Except.ok (settings, env, proj))) :
    ResolveForRequest o st1 filepath clientData =
      (st1, [], Except.ok (settings, env, proj)) := by
  unfold ResolveForRequest at h
  cases he : (EnvironmentForRequest o st0 filepath clientData).2.2 with
  | error msg => simp only [he] at h; simp at h
  | ok env0 =>
    simp only [he] at h
    simp only [Prod.mk.injEq, Except.ok.injEq] at h
    obtain ⟨hst, _, hs, henv0, hp⟩ := h
    have hE := EnvironmentForRequest_ok_spec o st0 filepath clientData env0 he
    have hP := JediProjectForFile_spec o
      (EnvironmentForRequest o st0 filepath clientData).1 filepath clientData
      env0
    have hS := SettingsForRequest_spec o
      (JediProjectForFile o (EnvironmentForRequest o st0 filepath
        clientData).1 filepath clientData env0).2.1 filepath clientData
    have hsettings :
        alookup st1.settings_for_file (filepath, clientData) =
          some settings := by
      rw [← hst, ← hs]; exact hS.1
    have hproj :
        alookup st1.jedi_project_for_file (filepath, clientData) =
          some proj := by
      rw [← hst, ← hp, hS.2.2.2.1]; exact hP.1
    have henvfile :
        alookup st1.environment_for_file (filepath, clientData) =
          some env := by
      rw [← hst, ← henv0, hS.2.1, hP.2.1]; exact hE.1
    unfold ResolveForRequest
    simp only [EnvironmentForRequest_hit o st1 filepath clientData env
        henvfile,
      JediProjectForFile_hit o st1 filepath clientData env proj hproj,
      SettingsForRequest_hit o st1 filepath clientData settings hsettings]
    simp

/-- Witness for `resolution_cache_idempotent` at a concrete first run. -/
theorem resolution_cache_idempotent_witness :
    ResolveForRequest wOracles wStateResolved "a.py" "t" =
      (wStateResolved, [],
       Except.ok (⟨some "", none, none⟩, ⟨0, "/usr/bin/python3"⟩,
         ⟨"/proj", [], "/usr/bin/python3"⟩)) :=
  resolution_cache_idempotent wOracles emptyCompleterState wStateResolved
    "a.py" "t"
    [ResolutionEvent.settingsHookCall "a.py",
     ResolutionEvent.envCreated (some ""),
     ResolutionEvent.sysPathHookCall "a.py",
     ResolutionEvent.projectBuilt "a.py"]
    ⟨some "", none, none⟩ ⟨0, "/usr/bin/python3"⟩
    ⟨"/proj", [], "/usr/bin/python3"⟩ (by decide)

/-- Claim C4: for two distinct FileKeys whose configured interpreter paths
resolve and normalize to the same absolute executable path,
runtime-environment resolution returns the very same `PyEnv` instance (the
entry of the sub-cache keyed by the normalized resolved path — equal
including its identity stamp), and the second resolution constructs
nothing (no events). -/
theorem runtime_env_shared_by_interpreter_path (o : Oracles)
    (st0 : CompleterState) (fp1 cd1 fp2 cd2 : String) (s1 s2 : SettingsVal)
    (p1 p2 r1 r2 : String) (st1 st2 : CompleterState)
    (ev1 ev2 : List ResolutionEvent) (env1 env2 : PyEnv)
    (hkey : (fp1, cd1) ≠ (fp2, cd2))
    (hs1 : alookup st0.settings_for_file (fp1, cd1) = some s1)
    (hs2 : alookup st0.settings_for_file (fp2, cd2) = some s2)
    (hip1 : s1.interpreter_path = some p1)
    (hip2 : s2.interpreter_path = some p2)
    (hp1 : p1 ≠ "") (hp2 : p2 ≠ "")
    (hr1 : o.resolveExe p1 = some r1) (hr2 : o.resolveExe p2 = some r2)
    (hnorm : o.normpath r1 = o.normpath r2)
    (hm1 : alookup st0.environment_for_file (fp1, cd1) = none)
    (hm2 : alookup st0.environment_for_file (fp2, cd2) = none)
    (hc1 : EnvironmentForRequest o st0 fp1 cd1 =
      (st1, ev1, Except.ok env1))
    (hc2 : EnvironmentForRequest o st1 fp2 cd2 =
      (st2, ev2, Except.ok env2)) :
    env2 = env1 ∧ ev2 = [] := by
  unfold EnvironmentForRequest at hc1
  simp only [hm1, SettingsForRequest_hit o st0 fp1 cd1 s1 hs1, hip1,
    EnvironmentForInterpreterPath_resolved o st0 p1 r1 hp1 hr1] at hc1
  have key_facts :
      alookup st1.environment_for_interpreter_path
          (some (o.normpath r1)) = some env1 ∧
      st1.settings_for_file = st0.settings_for_file ∧
      alookup st1.environment_for_file (fp2, cd2) = none := by
    cases hl1 : alookup st0.environment_for_interpreter_path
        (some (o.normpath r1)) with
    | some envc =>
      simp only [hl1, List.nil_append, Prod.mk.injEq,
        Except.ok.injEq] at hc1
      obtain ⟨hst1, _, henv1⟩ := hc1
      subst henv1
      refine ⟨?_, ?_, ?_⟩
      · rw [← hst1]; exact hl1
      · rw [← hst1]
      · rw [← hst1]; simp [alookup, Ne.symm hkey, hm2]
    | none =>
      simp only [hl1, List.nil_append, Prod.mk.injEq,
        Except.ok.injEq] at hc1
      obtain ⟨hst1, _, henv1⟩ := hc1
      refine ⟨?_, ?_, ?_⟩
      · rw [← hst1, ← henv1]; simp [alookup]
      · rw [← hst1]
      · rw [← hst1]; simp [alookup, Ne.symm hkey, hm2]
  have hs2st1 : alookup st1.settings_for_file (fp2, cd2) = some s2 := by
    rw [key_facts.2.1]; exact hs2
  unfold EnvironmentForRequest at hc2
  simp only [key_facts.2.2, SettingsForRequest_hit o st1 fp2 cd2 s2 hs2st1,
    hip2, EnvironmentForInterpreterPath_resolved o st1 p2 r2 hp2 hr2,
    ← hnorm, key_facts.1, List.nil_append, Prod.mk.injEq,
    Except.ok.injEq] at hc2
  exact ⟨hc2.2.2.symm, hc2.2.1.symm⟩

/-- Witness for `runtime_env_shared_by_interpreter_path` at two concrete
FileKeys sharing one normalized interpreter path. -/
theorem runtime_env_shared_by_interpreter_path_witness :
    EnvironmentForRequest wOracles wStateTwoFiles "a.py" "t" =
      (wStateTwoFilesAfterA,
       [ResolutionEvent.envCreated (some "/usr/bin/python3.11")],
       Except.ok ⟨0, "/usr/bin/python3.11"⟩) ∧
    EnvironmentForRequest wOracles wStateTwoFilesAfterA "b.py" "t" =
      (wStateTwoFilesAfterB, [], Except.ok ⟨0, "/usr/bin/python3.11"⟩) ∧
    (⟨0, "/usr/bin/python3.11"⟩ : PyEnv) = ⟨0, "/usr/bin/python3.11"⟩ :=
  ⟨by decide, by decide,
   (runtime_env_shared_by_interpreter_path wOracles wStateTwoFiles
     "a.py" "t" "b.py" "t" ⟨some "py1", none, none⟩ ⟨some "py2", none, none⟩
     "py1" "py2" "/usr/bin/python3.11" "/usr/bin/python3.11"
     wStateTwoFilesAfterA wStateTwoFilesAfterB
     [ResolutionEvent.envCreated (some "/usr/bin/python3.11")] []
     ⟨0, "/usr/bin/python3.11"⟩ ⟨0, "/usr/bin/python3.11"⟩
     (by decide) (by decide) (by decide) rfl rfl (by decide) (by decide)
     (by decide) (by decide) rfl rfl rfl (by decide) (by decide)).1⟩

/-- Claim C7: runtime-environment resolution fails if and only if a
non-empty interpreter path cannot be located; an empty interpreter hint
resolves to the system default runtime without error; and a failed
resolution leaves the completer state (in particular the interpreter-path
cache table) unchanged and constructs nothing. -/
theorem EnvironmentForInterpreterPath_error_policy (o : Oracles) :
    (∀ (st : CompleterState) (ip : Option String),
       (∃ e, (EnvironmentForInterpreterPath o st ip).2.2 =
         Except.error e) ↔
       (∃ p, ip = some p ∧ p ≠ "" ∧ o.resolveExe p = none)) ∧
    (∀ st : CompleterState,
       alookup st.environment_for_interpreter_path (some "") = none →
       (EnvironmentForInterpreterPath o st (some "")).2.2 =
           Except.ok ⟨st.nextEnvId, o.defaultExe⟩ ∧
         (EnvironmentForInterpreterPath o st
             (some "")).1.environment_for_interpreter_path =
           (some "", ⟨st.nextEnvId, o.defaultExe⟩) ::
             st.environment_for_interpreter_path) ∧
    (∀ (st : CompleterState) (ip : Option String) (e : String),
       (EnvironmentForInterpreterPath o st ip).2.2 = Except.error e →
       (EnvironmentForInterpreterPath o st ip).1 = st ∧
         (EnvironmentForInterpreterPath o st ip).2.1 = []) := by
  have main : ∀ (st : CompleterState) (ip : Option String),
      ((∃ e, (EnvironmentForInterpreterPath o st ip).2.2 =
          Except.error e) ↔
        (∃ p, ip = some p ∧ p ≠ "" ∧ o.resolveExe p = none)) ∧
      (∀ e, (EnvironmentForInterpreterPath o st ip).2.2 =
          Except.error e →
        (EnvironmentForInterpreterPath o st ip).1 = st ∧
          (EnvironmentForInterpreterPath o st ip).2.1 = []) := by
    intro st ip
    by_cases ht : pyTruthy ip = true
    · obtain ⟨p, rfl⟩ : ∃ p, ip = some p := by
        cases ip with
        | none => simp [pyTruthy] at ht
        | some p => exact ⟨p, rfl⟩
      have hp : p ≠ "" := by simpa [pyTruthy] using ht
      cases hr : o.resolveExe p with
      | none =>
        rw [EnvironmentForInterpreterPath_unresolvable o st p hp hr]
        refine ⟨⟨fun _ => ⟨p, rfl, hp, hr⟩, fun _ => ⟨_, rfl⟩⟩, ?_⟩
        intro e _
        exact ⟨rfl, rfl⟩
      | some r =>
        rw [EnvironmentForInterpreterPath_resolved o st p r hp hr]
        cases hl : alookup st.environment_for_interpreter_path
            (some (o.normpath r)) with
        | some env =>
          simp only [hl]
          refine ⟨⟨?_, ?_⟩, ?_⟩
          · rintro ⟨e, he⟩; exact Except.noConfusion he
          · rintro ⟨q, hq, _, hrq⟩
            obtain rfl : p = q := by simpa using hq
            rw [hr] at hrq
            exact Option.noConfusion hrq
          · intro e he; exact Except.noConfusion he
        | none =>
          simp only [hl]
          refine ⟨⟨?_, ?_⟩, ?_⟩
          · rintro ⟨e, he⟩; exact Except.noConfusion he
          · rintro ⟨q, hq, _, hrq⟩
            obtain rfl : p = q := by simpa using hq
            rw [hr] at hrq
            exact Option.noConfusion hrq
          · intro e he; exact Except.noConfusion he
    · have ht2 : pyTruthy ip = false := by simpa using ht
      rw [EnvironmentForInterpreterPath_falsy o st ip ht2]
      cases hl : alookup st.environment_for_interpreter_path ip with
      | some env =>
        simp only [hl]
        refine ⟨⟨?_, ?_⟩, ?_⟩
        · rintro ⟨e, he⟩; exact Except.noConfusion he
        · rintro ⟨q, hq, hqn, _⟩
          rw [hq] at ht2; simp [pyTruthy, hqn] at ht2
        · intro e he; exact Except.noConfusion he
      | none =>
        simp only [hl]
        refine ⟨⟨?_, ?_⟩, ?_⟩
        · rintro ⟨e, he⟩; exact Except.noConfusion he
        · rintro ⟨q, hq, hqn, _⟩
          rw [hq] at ht2; simp [pyTruthy, hqn] at ht2
        · intro e he; exact Except.noConfusion he
  refine ⟨fun st ip => (main st ip).1, ?_, fun st ip => (main st ip).2⟩
  intro st hl
  rw [EnvironmentForInterpreterPath_falsy o st (some "")
    (by simp [pyTruthy])]
  simp [hl]

/-- Witness for `EnvironmentForInterpreterPath_error_policy` at concrete
inputs: an unresolvable path errors without touching the state, and the
empty hint resolves to the default runtime. -/
theorem EnvironmentForInterpreterPath_error_policy_witness :
    (∃ e, (EnvironmentForInterpreterPath wOracles emptyCompleterState
      (some "missing")).2.2 = Except.error e) ∧
    (EnvironmentForInterpreterPath wOracles emptyCompleterState
        (some "")).2.2 = Except.ok ⟨0, wOracles.defaultExe⟩ ∧
    (EnvironmentForInterpreterPath wOracles emptyCompleterState
        (some "missing")).1 = emptyCompleterState :=
  ⟨((EnvironmentForInterpreterPath_error_policy wOracles).1
      emptyCompleterState (some "missing")).mpr
      ⟨"missing", rfl, by decide, by decide⟩,
   ((EnvironmentForInterpreterPath_error_policy wOracles).2.1
      emptyCompleterState rfl).1,
   (((EnvironmentForInterpreterPath_error_policy wOracles).2.2
      emptyCompleterState (some "missing")
      "Cannot find Python interpreter path missing.") (by decide)).1⟩

theorem BuildGoToResponse_count_le (definitions : List JediDefinition)
    (requestFilepath : String) :
    GoToResponseCount (BuildGoToResponse definitions requestFilepath) ≤
      definitions.length := by
  match definitions with
  | [] => simp [BuildGoToResponse, GoToResponseCount]
  | [d] =>
    by_cases h : d.column = none ∧ d.line = none ∧ d.module_path = none
    · simp [BuildGoToResponse, h, GoToResponseCount]
    · simp [BuildGoToResponse, h, GoToResponseCount]
  | d1 :: d2 :: rest =>
    simp only [BuildGoToResponse, GoToResponseCount]
    exact List.length_filterMap_le _ _

/-- Claim C10: a symbol-search request that succeeds returns at most
`max_num_candidates` results, with the limit replaced by exactly 100 when
that option is negative. -/
theorem GoToSymbol_result_limit (maxNumCandidates : Int)
    (completeSearch : String → List JediDefinition)
    (requestFilepath : String) (args : List String) (r : GoToResponse)
    (h : GoToSymbol maxNumCandidates completeSearch requestFilepath args =
      Except.ok r) :
    GoToResponseCount r ≤
      (if maxNumCandidates < 0 then 100 else maxNumCandidates.toNat) := by
  cases args with
  | nil => simp [GoToSymbol] at h
  | cons query rest =>
    simp only [GoToSymbol] at h
    by_cases he : ((completeSearch query).take
        (if maxNumCandidates < 0 then (100 : Int)
         else maxNumCandidates).toNat).isEmpty = true
    · rw [if_pos he] at h
      exact absurd h (by simp)
    · rw [if_neg he] at h
      have hMt : (if maxNumCandidates < 0 then (100 : Int)
          else maxNumCandidates).toNat =
          (if maxNumCandidates < 0 then 100 else maxNumCandidates.toNat) := by
        split <;> rfl
      have hlen : ((completeSearch query).take
          (if maxNumCandidates < 0 then (100 : Int)
           else maxNumCandidates).toNat).length ≤
          (if maxNumCandidates < 0 then (100 : Int)
           else maxNumCandidates).toNat :=
        List.length_take_le _ _
      have hcount := BuildGoToResponse_count_le
        ((completeSearch query).take
          (if maxNumCandidates < 0 then (100 : Int)
           else maxNumCandidates).toNat) requestFilepath
      cases hb : BuildGoToResponse
          ((completeSearch query).take
            (if maxNumCandidates < 0 then (100 : Int)
             else maxNumCandidates).toNat) requestFilepath with
      | nothing => rw [hb] at h; exact absurd h (by simp)
      | single item =>
        rw [hb] at h
        simp only [Except.ok.injEq] at h
        rw [hb] at hcount
        rw [← h, ← hMt]
        exact le_trans hcount hlen
      | multiple items =>
        rw [hb] at h
        simp only [Except.ok.injEq] at h
        rw [hb] at hcount
        rw [← h, ← hMt]
        exact le_trans hcount hlen

/-- Witness for `GoToSymbol_result_limit`: a negative option admits at most
100 results; a concrete search yielding 3 definitions returns 3. -/
theorem GoToSymbol_result_limit_witness :
    GoToResponseCount
      (GoToResponse.multiple (List.replicate 3 ⟨"mod.py", some 1, 1, "d"⟩)) ≤
      100 := by
  have happ := GoToSymbol_result_limit (-1) (fun _ => wDefs) "f.py" ["q"]
    (GoToResponse.multiple (List.replicate 3 ⟨"mod.py", some 1, 1, "d"⟩))
    (by decide)
  simpa using happ

theorem foldl_chunk_length (g : Opcode → FixItChunk) :
    ∀ (ops : List Opcode) (acc : List FixItChunk),
      (ops.foldl (fun chunks op =>
        if op.tag = OpTag.equal then chunks else chunks ++ [g op])
        acc).length =
      acc.length + (ops.filter (fun op => ¬ op.tag = OpTag.equal)).length := by
  intro ops
  induction ops with
  | nil => intro acc; simp
  | cons op ops ih =>
    intro acc
    by_cases hop : op.tag = OpTag.equal
    · simp [hop, ih]
    · simp only [List.foldl_cons, if_neg hop, ih, List.length_append,
        List.filter_cons]
      simp [hop]
      omega

/-- Claim C8: the patch builder emits exactly one chunk per non-equal
opcode of the alignment and skips equal ranges entirely; in particular the
old/new pair `"a=1\n"` / `"a=2\n"` yields exactly one chunk replacing
column 3 to column 4 of line 1 with the text `"2"`. -/
theorem RefactoringToFixIt_chunk_per_opcode :
    (∀ (filename : String) (oldText newText : List Char)
       (newlines : List Nat) (ops : List Opcode),
       (ChunksFromOpcodes filename oldText newText newlines ops).length =
         (ops.filter (fun op => ¬ op.tag = OpTag.equal)).length) ∧
    RefactoringChunksForFile "f" ("a=1\n".toList) ("a=2\n".toList) =
      [⟨['2'], [⟨1, 3, "f"⟩, ⟨1, 4, "f"⟩]⟩] := by
  constructor
  · intro filename oldText newText newlines ops
    have hg := foldl_chunk_length (fun op =>
      ⟨(newText.take op.newEnd).drop op.newStart,
       OffsetToPosition [op.oldStart, op.oldEnd] filename oldText newlines⟩)
      ops []
    simpa [ChunksFromOpcodes] using hg
  · decide

/-- Claim C1 (refuted by the code): `_OffsetToPosition` applied to an
offset pair beyond the sentinel offset returns an empty tuple — and to a
pair with only the start in range, a partial one-element tuple — instead of
raising: the `raise RuntimeError( "Invalid file offset in diff" )` at
source line 846 is unreachable, sitting after the unconditional
`return loc` at line 837. -/
theorem OffsetToPosition_out_of_bounds_silent :
    OffsetToPosition [5, 6] "f" ("a\n".toList) [1, 2] = [] ∧
    (OffsetToPosition [0, 5] "f" ("a\n".toList) [1, 2]).length = 1 := by
  exact ⟨by decide, by decide⟩

end Ycmd
